import Mathlib

/-!
Verification of the sublinkPro-plugins plugin manager (Go package `plugins`).

The embedding models the registry (`Manager.plugins`), the lifecycle
operations `loadPlugin`, `EnablePlugin`, `DisablePlugin`,
`UpdatePluginConfig`, `Shutdown`, the dispatcher `TriggerEvent`, and the
storage collaborator interface from `storage.go`.

External collaborators (the dynamic-library loader, the storage backend, the
JSON parser, and each plugin instance's behaviour) are modelled as
environment data supplied to each operation: a plugin instance carries the
outcomes of its `Init`/`Close` calls, and a `LoadEnv` carries the loader,
storage-read, parse and storage-write outcomes for one `loadPlugin` run.
Each operation returns the new registry, the returned error, and a trace of
the collaborator calls it made (`Init`, `Close`, `SetConfig`,
`DefaultConfig`, `SavePlugin`) so that call-count and call-argument
properties can be stated.
-/

namespace SublinkPlugins

/-- Go `type EventType string`; the four constants are values of it. -/
abbrev EventType := String

def EventAPISuccess : EventType := "api_success"
def EventAPIError : EventType := "api_error"
def EventAPIBefore : EventType := "api_before"
def EventAPIAfter : EventType := "api_after"

/-- A Go `map[string]interface{}` config: the keys with their values.
Values (Go `interface{}`) are modelled as strings; the manager never
inspects them, it only stores, passes and compares configs. -/
abbrev ConfigMap := List (String × String)

/-- A Go config variable may be the nil map; `none` models nil. -/
abbrev Config := Option ConfigMap

/-- A plugin instance as produced by the loader: its identity answers and
the outcomes of its lifecycle calls (`Init`, `Close`) plus its declared
interest sets. This models the `Plugin` interface of `interfaces.go`. -/
structure PluginImpl where
  name : String
  version : String
  description : String
  defaultConfig : Config
  initOk : Bool
  closeOk : Bool
  interestedAPIs : List String
  interestedEvents : List EventType
deriving DecidableEq, Repr

/-- `PluginInfo` from `interfaces.go`: the registry's record for one
loaded module. -/
structure PluginInfo where
  name : String
  version : String
  description : String
  filePath : String
  enabled : Bool
  config : Config
  plugin : PluginImpl
deriving DecidableEq, Repr

/-- `PluginStorageInfo` from `storage.go`: the persisted record, with the
config serialized as a string. -/
structure PluginStorageInfo where
  name : String
  path : String
  enabled : Bool
  config : String
deriving DecidableEq, Repr

/-- The manager's `plugins` map, `map[string]*PluginInfo`, as an
association list with unique keys. -/
abbrev Registry := List (String × PluginInfo)

/-- Association-list lookup (Go map read `m[k]`). -/
def alookup {α β : Type} [DecidableEq α] : List (α × β) → α → Option β
  | [], _ => none
  | (k1, v) :: rest, k => if k1 = k then some v else alookup rest k

/-- Go map write `m[k] = v`: replace the entry if the key is present,
otherwise append it. -/
def mapInsert {α β : Type} [DecidableEq α] : List (α × β) → α → β → List (α × β)
  | [], k, v => [(k, v)]
  | (k1, v1) :: rest, k, v =>
      if k1 = k then (k, v) :: rest else (k1, v1) :: mapInsert rest k v

/-- The arguments of one `storage.SavePlugin(name, path, enabled, config)`
call. -/
structure SaveCall where
  name : String
  path : String
  enabled : Bool
  config : Config
deriving DecidableEq, Repr

/-- The collaborator calls one manager operation made: how many times the
instance's `Init` and `Close` ran, the arguments of each `SetConfig` call in
order, how many times `DefaultConfig` was consulted, and the arguments of
each `storage.SavePlugin` call. -/
structure Trace where
  initCalls : Nat
  closeCalls : Nat
  setConfigs : List Config
  defaultConfigCalls : Nat
  saves : List SaveCall
deriving DecidableEq, Repr

def Trace.empty : Trace := ⟨0, 0, [], 0, []⟩

/-- The errors the manager returns (Go `fmt.Errorf` values, by site). -/
inductive MErr where
  | openFailed
  | parseFailed
  | notFound (name : String)
  | initFailed
  | loadInitFailed (name : String)
  | saveFailed
deriving DecidableEq, Repr

/-- Environment of one `loadPlugin` run: the loader's outcome (`none` when
`plugin.Open`/`Lookup`/the type assertion fails), the two results of
`storage.GetPlugin` (the record pointer and the error, which the code
discards with `_`), the `json.Unmarshal` outcome for a config string
(`none` = parse error), and the `storage.SavePlugin` outcome. -/
structure LoadEnv where
  loadResult : Option PluginImpl
  dbRec : Option PluginStorageInfo
  dbErr : Bool
  parse : String → Option ConfigMap
  saveOk : Bool

/-- `Manager.loadPlugin` from `manager.go`. Returns the new registry, the
returned error, and the trace of collaborator calls. -/
def loadPlugin (reg : Registry) (pluginPath : String) (env : LoadEnv) :
    Registry × Option MErr × Trace :=
  match env.loadResult with
  | none => (reg, some MErr.openFailed, Trace.empty)
  | some inst =>
    -- pluginDB, _ := storage.GetPlugin(pluginPath) — the error is discarded
    let pluginDB := env.dbRec
    -- resolve config / enable (also counting DefaultConfig consultations);
    -- none means the persisted config string failed to parse
    let resolved : Option (Config × Bool × Nat) :=
      match pluginDB with
      | some db =>
          if db.config = "" then some (none, db.enabled, 0)
          else
            match env.parse db.config with
            | none => none
            | some m => some (some m, db.enabled, 0)
      | none => some (inst.defaultConfig, false, 1)
    match resolved with
    | none => (reg, some MErr.parseFailed, Trace.empty)
    | some (config, enable, dcc) =>
      -- pluginInstance.SetConfig(config), then build the PluginInfo
      let info : PluginInfo :=
        ⟨inst.name, inst.version, inst.description, pluginPath, enable, config, inst⟩
      if info.enabled then
        if inst.initOk then
          -- Init succeeded: register, then SavePlugin (failure only logged)
          (mapInsert reg info.name info, none,
            ⟨1, 0, [config], dcc, [⟨info.name, pluginPath, true, config⟩]⟩)
        else
          -- Init failed: flip to disabled, SavePlugin(false) (failure only
          -- logged), return the load error without registering
          (reg, some (MErr.loadInitFailed info.name),
            ⟨1, 0, [config], dcc, [⟨info.name, pluginPath, false, config⟩]⟩)
      else
        -- disabled: register, then SavePlugin (failure only logged)
        (mapInsert reg info.name info, none,
          ⟨0, 0, [config], dcc, [⟨info.name, pluginPath, false, config⟩]⟩)

/-- `Manager.EnablePlugin` from `manager.go`. `saveOk` is the outcome of
the `storage.SavePlugin` call, when reached. -/
def EnablePlugin (reg : Registry) (name : String) (saveOk : Bool) :
    Registry × Option MErr × Trace :=
  match alookup reg name with
  | none => (reg, some (MErr.notFound name), Trace.empty)
  | some info =>
    if info.enabled then (reg, none, Trace.empty)
    else if info.plugin.initOk then
      if saveOk then
        (mapInsert reg name { info with enabled := true }, none,
          ⟨1, 0, [], 0, [⟨info.name, info.filePath, true, info.config⟩]⟩)
      else
        -- storage failed: roll enabled back to false and Close the
        -- instance (its result discarded); net registry unchanged
        (reg, some MErr.saveFailed,
          ⟨1, 1, [], 0, [⟨info.name, info.filePath, true, info.config⟩]⟩)
    else (reg, some MErr.initFailed, ⟨1, 0, [], 0, []⟩)

/-- `Manager.DisablePlugin` from `manager.go`. `saveOk` is the outcome of
the `storage.SavePlugin` call; on failure the code only logs and still
returns nil. -/
def DisablePlugin (reg : Registry) (name : String) (saveOk : Bool) :
    Registry × Option MErr × Trace :=
  match alookup reg name with
  | none => (reg, some (MErr.notFound name), Trace.empty)
  | some info =>
    if info.enabled then
      -- Close (failure only logged), mark disabled, SavePlugin (failure
      -- only logged); nil is returned either way
      (mapInsert reg name { info with enabled := false }, none,
        ⟨0, 1, [], 0, [⟨info.name, info.filePath, false, info.config⟩]⟩)
    else (reg, none, Trace.empty)

/-- `Manager.UpdatePluginConfig` from `manager.go`. -/
def UpdatePluginConfig (reg : Registry) (name : String) (config : Config)
    (saveOk : Bool) : Registry × Option MErr × Trace :=
  match alookup reg name with
  | none => (reg, some (MErr.notFound name), Trace.empty)
  | some info =>
    let oldConfig := info.config
    if saveOk then
      (mapInsert reg name { info with config := config }, none,
        ⟨0, 0, [config], 0, [⟨info.name, info.filePath, info.enabled, config⟩]⟩)
    else
      -- storage failed: restore the record's config and re-apply the old
      -- config to the instance, return the storage error
      (reg, some MErr.saveFailed,
        ⟨0, 0, [config, oldConfig], 0,
          [⟨info.name, info.filePath, info.enabled, config⟩]⟩)

/-- `Manager.Shutdown` from `manager.go`: Close every instance (failures
logged) and clear the registry. -/
def Shutdown (reg : Registry) : Registry × Trace :=
  ([], ⟨0, reg.length, [], 0, []⟩)

/-- The inner loop of `TriggerEvent` over `InterestedEvents()`. -/
def eventInterested (evs : List EventType) (event : EventType) : Bool :=
  evs.any (fun e => e == event)

/-- `strings.HasPrefix(s, pre)`: s begins with pre, modelled on the
character sequences of the two strings. -/
def strStartsWith (s pre : String) : Bool :=
  pre.data.isPrefixOf s.data

/-- The inner loop of `TriggerEvent` over `InterestedAPIs()`:
`strings.HasPrefix(path, interestedAPI)`. -/
def apiInterested (apis : List String) (path : String) : Bool :=
  apis.any (fun a => strStartsWith path a)

/-- The skip conditions of `TriggerEvent` for one record. -/
def shouldDispatch (info : PluginInfo) (event : EventType) (path : String) : Bool :=
  info.enabled && eventInterested info.plugin.interestedEvents event
    && apiInterested info.plugin.interestedAPIs path

/-- `Manager.TriggerEvent` from `manager.go`: the records whose
`OnAPIEvent` handler is dispatched (each as a detached goroutine; the
dispatch decision is what is modelled). -/
def TriggerEvent (reg : Registry) (event : EventType) (path : String) :
    List PluginInfo :=
  (reg.filter (fun kv => shouldDispatch kv.2 event path)).map (fun kv => kv.2)

/-! ## Pointer model for `GetAllPlugins`

The Go registry stores `*PluginInfo` pointers; `GetAllPlugins` builds a
fresh map holding the same pointers. To reason about mutation through the
returned map, the registry is modelled here with an explicit heap: the map
sends names to addresses and the heap sends addresses to records. -/

abbrev Addr := Nat

/-- The manager state with pointers explicit: `plugins` is the
`map[string]*PluginInfo` (name to pointer) and `heap` gives each pointer's
current `PluginInfo` contents. -/
structure MState where
  plugins : List (String × Addr)
  heap : List (Addr × PluginInfo)
deriving DecidableEq, Repr

/-- `Manager.GetAllPlugins`: a fresh map with the same entries — the same
name-to-pointer pairs, not copies of the records. -/
def GetAllPlugins (s : MState) : List (String × Addr) := s.plugins

/-- Mutating the record a pointer refers to (e.g. a caller writing a field
of a `*PluginInfo` obtained from `GetAllPlugins`). -/
def heapSet (h : List (Addr × PluginInfo)) (a : Addr) (v : PluginInfo) :
    List (Addr × PluginInfo) :=
  h.map (fun p => if p.1 = a then (a, v) else p)

/-- The record the registry itself observes under a name: follow the
pointer into the heap. -/
def observe (s : MState) (name : String) : Option PluginInfo :=
  (alookup s.plugins name).bind (fun a => alookup s.heap a)

/-! ## Map lemmas -/

theorem alookup_mapInsert_self {α β : Type} [DecidableEq α]
    (l : List (α × β)) (k : α) (v : β) :
    alookup (mapInsert l k v) k = some v := by
  induction l with
  | nil => simp [mapInsert, alookup]
  | cons hd tl ih =>
    by_cases h : hd.1 = k
    · simp [mapInsert, alookup, h]
    · simpa [mapInsert, alookup, h] using ih

theorem alookup_mem {α β : Type} [DecidableEq α]
    {l : List (α × β)} {k : α} {v : β} (h : alookup l k = some v) :
    (k, v) ∈ l := by
  induction l with
  | nil => simp [alookup] at h
  | cons hd tl ih =>
    obtain ⟨k1, v1⟩ := hd
    by_cases hk : k1 = k
    · subst hk
      simp [alookup] at h
      subst h
      exact List.mem_cons_self _ _
    · simp only [alookup, if_neg hk] at h
      exact List.mem_cons_of_mem _ (ih h)

theorem all_mapInsert {α β : Type} [DecidableEq α]
    {l : List (α × β)} {p : α × β → Bool} {k : α} {v : β}
    (hl : l.all p = true) (hv : p (k, v) = true) :
    (mapInsert l k v).all p = true := by
  induction l with
  | nil => simp [mapInsert, hv]
  | cons hd tl ih =>
    simp only [List.all_cons, Bool.and_eq_true] at hl
    by_cases h : hd.1 = k
    · simp [mapInsert, h, hv, hl.2]
    · simp [mapInsert, h, hl.1, ih hl.2]

theorem alookup_heapSet {h : List (Addr × PluginInfo)} {a : Addr}
    {x : PluginInfo} (hx : alookup h a = some x) (v : PluginInfo) :
    alookup (heapSet h a v) a = some v := by
  induction h with
  | nil => simp [alookup] at hx
  | cons hd tl ih =>
    obtain ⟨a1, u⟩ := hd
    by_cases ha : a1 = a
    · subst ha
      simp only [heapSet, List.map_cons]
      simp [alookup]
    · simp only [alookup, if_neg ha] at hx
      simp only [heapSet, List.map_cons]
      rw [if_neg (show ¬(a1, u).1 = a from ha)]
      simp only [alookup, if_neg ha]
      exact ih hx

/-! ## Sample data for concrete witnesses -/

/-- A sample instance whose lifecycle calls succeed, interested in the
`api_before` event on the `/v1/users` path prefix. -/
def sampleInst : PluginImpl :=
  ⟨"p", "1.0", "demo", some [("k", "d")], true, true, ["/v1/users"], [EventAPIBefore]⟩

/-- A disabled registry record for `sampleInst`. -/
def sampleOff : PluginInfo :=
  ⟨"p", "1.0", "demo", "./plugins/p.so", false, some [("k", "v")], sampleInst⟩

/-- An enabled registry record for `sampleInst`. -/
def sampleOn : PluginInfo :=
  ⟨"p", "1.0", "demo", "./plugins/p.so", true, some [("k", "v")], sampleInst⟩

def regOff : Registry := [("p", sampleOff)]

def regOn : Registry := [("p", sampleOn)]

/-! ## Claim theorems -/

/-- C3: enabling a registered, disabled plugin whose `Init` succeeds but
whose persistence write fails leaves the registry unchanged (the record's
enabled flag is still false), calls `Init` once and `Close` exactly once,
and returns the persistence error, not the ignored `Close` result. -/
theorem enablePlugin_save_fail_rollback (reg : Registry) (name : String)
    (info : PluginInfo) (h : alookup reg name = some info)
    (hdis : info.enabled = false) (hinit : info.plugin.initOk = true) :
    (EnablePlugin reg name false).1 = reg ∧
    alookup (EnablePlugin reg name false).1 name = some info ∧
    info.enabled = false ∧
    (EnablePlugin reg name false).2.2.initCalls = 1 ∧
    (EnablePlugin reg name false).2.2.closeCalls = 1 ∧
    (EnablePlugin reg name false).2.1 = some MErr.saveFailed := by
  simp [EnablePlugin, h, hdis, hinit]

/-- Witness for C3 at a concrete registry. -/
theorem enablePlugin_save_fail_rollback_w :
    (alookup regOff "p" = some sampleOff ∧ sampleOff.enabled = false ∧
      sampleOff.plugin.initOk = true) ∧
    ((EnablePlugin regOff "p" false).1 = regOff ∧
      alookup (EnablePlugin regOff "p" false).1 "p" = some sampleOff ∧
      sampleOff.enabled = false ∧
      (EnablePlugin regOff "p" false).2.2.initCalls = 1 ∧
      (EnablePlugin regOff "p" false).2.2.closeCalls = 1 ∧
      (EnablePlugin regOff "p" false).2.1 = some MErr.saveFailed) :=
  ⟨⟨by decide, by decide, by decide⟩,
    enablePlugin_save_fail_rollback regOff "p" sampleOff (by decide)
      (by decide) (by decide)⟩

/-- C5: updating a registered plugin's config when the persistence write
fails returns the persistence error and rolls back: the stored record is
unchanged, `SetConfig` was called with the new config and then with the
pre-update snapshot, so the configuration last applied to the instance is
the pre-update config. -/
theorem updateConfig_save_fail_rollback (reg : Registry) (name : String)
    (info : PluginInfo) (cfg : Config) (h : alookup reg name = some info) :
    (UpdatePluginConfig reg name cfg false).1 = reg ∧
    alookup (UpdatePluginConfig reg name cfg false).1 name = some info ∧
    (UpdatePluginConfig reg name cfg false).2.2.setConfigs =
      [cfg, info.config] ∧
    (UpdatePluginConfig reg name cfg false).2.2.setConfigs.getLast? =
      some info.config ∧
    (UpdatePluginConfig reg name cfg false).2.1 = some MErr.saveFailed := by
  simp [UpdatePluginConfig, h]

/-- Witness for C5 at a concrete registry. -/
theorem updateConfig_save_fail_rollback_w :
    alookup regOn "p" = some sampleOn ∧
    ((UpdatePluginConfig regOn "p" (some [("k", "new")]) false).1 = regOn ∧
      alookup (UpdatePluginConfig regOn "p" (some [("k", "new")]) false).1 "p" =
        some sampleOn ∧
      (UpdatePluginConfig regOn "p" (some [("k", "new")]) false).2.2.setConfigs =
        [some [("k", "new")], sampleOn.config] ∧
      (UpdatePluginConfig regOn "p"
          (some [("k", "new")]) false).2.2.setConfigs.getLast? =
        some sampleOn.config ∧
      (UpdatePluginConfig regOn "p" (some [("k", "new")]) false).2.1 =
        some MErr.saveFailed) :=
  ⟨by decide,
    updateConfig_save_fail_rollback regOn "p" sampleOn (some [("k", "new")])
      (by decide)⟩

/-- C8: disabling a registered, enabled plugin succeeds even when the
persistence write fails: the record ends disabled, `Close` was called once,
and the persistence error is not returned to the caller (only logged) —
asymmetric with enable's rollback. -/
theorem disablePlugin_save_fail_success (reg : Registry) (name : String)
    (info : PluginInfo) (h : alookup reg name = some info)
    (hen : info.enabled = true) :
    (DisablePlugin reg name false).2.1 = none ∧
    alookup (DisablePlugin reg name false).1 name =
      some { info with enabled := false } ∧
    (DisablePlugin reg name false).2.2.closeCalls = 1 := by
  simp [DisablePlugin, h, hen, alookup_mapInsert_self]

/-- Witness for C8 at a concrete registry. -/
theorem disablePlugin_save_fail_success_w :
    (alookup regOn "p" = some sampleOn ∧ sampleOn.enabled = true) ∧
    ((DisablePlugin regOn "p" false).2.1 = none ∧
      alookup (DisablePlugin regOn "p" false).1 "p" =
        some { sampleOn with enabled := false } ∧
      (DisablePlugin regOn "p" false).2.2.closeCalls = 1) :=
  ⟨⟨by decide, by decide⟩,
    disablePlugin_save_fail_success regOn "p" sampleOn (by decide) (by decide)⟩

/-! ## loadPlugin environments for concrete witnesses -/

/-- Loader succeeds, storage has no prior record. -/
def envNoRec : LoadEnv := ⟨some sampleInst, none, false, fun _ => none, true⟩

/-- Storage has a record with an unparseable config string. -/
def envBadCfg : LoadEnv :=
  ⟨some sampleInst, some ⟨"p", "./plugins/p.so", false, "bad"⟩, false,
    fun _ => none, true⟩

/-- Storage has an enabled record with an empty config string; the
persistence write fails. -/
def envSaveFail : LoadEnv :=
  ⟨some sampleInst, some ⟨"p", "./plugins/p.so", true, ""⟩, false,
    fun _ => none, false⟩

/-- An instance whose `Init` fails. -/
def badInitInst : PluginImpl :=
  ⟨"q", "1.0", "demo", some [("k", "d")], false, true, [], []⟩

/-- Storage has an enabled record with empty config; `Init` will fail. -/
def envEmptyCfgFail : LoadEnv :=
  ⟨some badInitInst, some ⟨"q", "./plugins/q.so", true, ""⟩, false,
    fun _ => none, true⟩

/-- Storage has an enabled record with empty config; `Init` succeeds. -/
def envEmptyCfgOk : LoadEnv :=
  ⟨some sampleInst, some ⟨"p", "./plugins/p.so", true, ""⟩, false,
    fun _ => none, true⟩

/-- An instance with a nil default config. -/
def rInst : PluginImpl := ⟨"r", "1.0", "demo", none, true, true, [], []⟩

/-- The storage read reports an error AND returns a record. -/
def envReadErrRec : LoadEnv :=
  ⟨some rInst, some ⟨"r", "./plugins/r.so", false, "cfg"⟩, true,
    fun _ => some [("k", "v")], true⟩

/-- The storage read reports an error and returns no record. -/
def envReadErrNoRec : LoadEnv := ⟨some sampleInst, none, true, fun _ => none, true⟩

/-- C7: loading a module with no prior persisted record registers it
disabled with its `DefaultConfig()`, that config is applied via
`SetConfig`, `DefaultConfig` was consulted, `Init` is not called, and the
load succeeds. -/
theorem loadPlugin_no_record (reg : Registry) (path : String) (env : LoadEnv)
    (inst : PluginImpl) (hload : env.loadResult = some inst)
    (hdb : env.dbRec = none) :
    alookup (loadPlugin reg path env).1 inst.name =
      some ⟨inst.name, inst.version, inst.description, path, false,
        inst.defaultConfig, inst⟩ ∧
    (loadPlugin reg path env).2.2.setConfigs = [inst.defaultConfig] ∧
    (loadPlugin reg path env).2.2.initCalls = 0 ∧
    (loadPlugin reg path env).2.2.defaultConfigCalls = 1 ∧
    (loadPlugin reg path env).2.1 = none := by
  simp [loadPlugin, hload, hdb, alookup_mapInsert_self]

/-- Witness for C7 at a concrete environment. -/
theorem loadPlugin_no_record_w :
    (envNoRec.loadResult = some sampleInst ∧ envNoRec.dbRec = none) ∧
    (alookup (loadPlugin [] "./plugins/p.so" envNoRec).1 sampleInst.name =
      some ⟨sampleInst.name, sampleInst.version, sampleInst.description,
        "./plugins/p.so", false, sampleInst.defaultConfig, sampleInst⟩ ∧
    (loadPlugin [] "./plugins/p.so" envNoRec).2.2.setConfigs =
      [sampleInst.defaultConfig] ∧
    (loadPlugin [] "./plugins/p.so" envNoRec).2.2.initCalls = 0 ∧
    (loadPlugin [] "./plugins/p.so" envNoRec).2.2.defaultConfigCalls = 1 ∧
    (loadPlugin [] "./plugins/p.so" envNoRec).2.1 = none) :=
  ⟨⟨rfl, rfl⟩, loadPlugin_no_record [] "./plugins/p.so" envNoRec sampleInst rfl rfl⟩

/-- C6: loading a module whose prior persisted record has a non-empty
config string that fails to parse returns a load error, leaves the
registry unchanged (so the module stays absent), and never calls
`SetConfig`. -/
theorem loadPlugin_parse_fail (reg : Registry) (path : String) (env : LoadEnv)
    (inst : PluginImpl) (db : PluginStorageInfo)
    (hload : env.loadResult = some inst) (hdb : env.dbRec = some db)
    (hne : ¬db.config = "") (hparse : env.parse db.config = none)
    (habs : alookup reg inst.name = none) :
    (loadPlugin reg path env).1 = reg ∧
    (loadPlugin reg path env).2.1 = some MErr.parseFailed ∧
    alookup (loadPlugin reg path env).1 inst.name = none ∧
    (loadPlugin reg path env).2.2.setConfigs = [] := by
  simp [loadPlugin, hload, hdb, hne, hparse, habs, Trace.empty]

/-- Witness for C6 at a concrete environment. -/
theorem loadPlugin_parse_fail_w :
    (envBadCfg.loadResult = some sampleInst ∧
      envBadCfg.dbRec = some ⟨"p", "./plugins/p.so", false, "bad"⟩ ∧
      envBadCfg.parse "bad" = none) ∧
    ((loadPlugin [] "./plugins/p.so" envBadCfg).1 = [] ∧
      (loadPlugin [] "./plugins/p.so" envBadCfg).2.1 = some MErr.parseFailed ∧
      alookup (loadPlugin [] "./plugins/p.so" envBadCfg).1 sampleInst.name =
        none ∧
      (loadPlugin [] "./plugins/p.so" envBadCfg).2.2.setConfigs = []) :=
  ⟨⟨rfl, rfl, rfl⟩,
    loadPlugin_parse_fail [] "./plugins/p.so" envBadCfg sampleInst
      ⟨"p", "./plugins/p.so", false, "bad"⟩ rfl rfl (by decide) rfl rfl⟩

/-- C9 counterexample: a module with a prior persisted record whose config
string is empty, but which is marked enabled while its `Init` fails —
`loadPlugin` returns an error and does not register the module, so
"loadOne succeeds" does not hold for every such module. -/
theorem loadPlugin_empty_config_cex :
    envEmptyCfgFail.dbRec = some ⟨"q", "./plugins/q.so", true, ""⟩ ∧
    (loadPlugin [] "./plugins/q.so" envEmptyCfgFail).2.1 =
      some (MErr.loadInitFailed "q") ∧
    alookup (loadPlugin [] "./plugins/q.so" envEmptyCfgFail).1 "q" = none :=
  ⟨rfl, rfl, rfl⟩

/-- C9 amended: when the prior persisted record's config string is empty,
no parse is attempted, the nil config is applied via `SetConfig`,
`DefaultConfig` is not consulted, and — provided the record was disabled
or `Init` succeeds — the load succeeds with the record's config nil. -/
theorem loadPlugin_empty_config (reg : Registry) (path : String)
    (env : LoadEnv) (inst : PluginImpl) (db : PluginStorageInfo)
    (hload : env.loadResult = some inst) (hdb : env.dbRec = some db)
    (hcfg : db.config = "") (hok : db.enabled = false ∨ inst.initOk = true) :
    (loadPlugin reg path env).2.1 = none ∧
    alookup (loadPlugin reg path env).1 inst.name =
      some ⟨inst.name, inst.version, inst.description, path, db.enabled,
        none, inst⟩ ∧
    (loadPlugin reg path env).2.2.setConfigs = [none] ∧
    (loadPlugin reg path env).2.2.defaultConfigCalls = 0 := by
  rcases hok with h1 | h1
  · simp [loadPlugin, hload, hdb, hcfg, h1, alookup_mapInsert_self]
  · cases hdbe : db.enabled
    · simp [loadPlugin, hload, hdb, hcfg, hdbe, alookup_mapInsert_self]
    · simp [loadPlugin, hload, hdb, hcfg, hdbe, h1, alookup_mapInsert_self]

/-- Witness for the amended C9 at a concrete environment. -/
theorem loadPlugin_empty_config_w :
    (envEmptyCfgOk.loadResult = some sampleInst ∧
      envEmptyCfgOk.dbRec = some ⟨"p", "./plugins/p.so", true, ""⟩ ∧
      sampleInst.initOk = true) ∧
    ((loadPlugin [] "./plugins/p.so" envEmptyCfgOk).2.1 = none ∧
      alookup (loadPlugin [] "./plugins/p.so" envEmptyCfgOk).1 sampleInst.name =
        some ⟨sampleInst.name, sampleInst.version, sampleInst.description,
          "./plugins/p.so", true, none, sampleInst⟩ ∧
      (loadPlugin [] "./plugins/p.so" envEmptyCfgOk).2.2.setConfigs = [none] ∧
      (loadPlugin [] "./plugins/p.so" envEmptyCfgOk).2.2.defaultConfigCalls =
        0) :=
  ⟨⟨rfl, rfl, rfl⟩,
    loadPlugin_empty_config [] "./plugins/p.so" envEmptyCfgOk sampleInst
      ⟨"p", "./plugins/p.so", true, ""⟩ rfl rfl rfl (Or.inr rfl)⟩

/-- C10 counterexample: the storage read reports an error but also returns
a record; `loadPlugin` uses that record — the module ends up with the
record's parsed config, not its `DefaultConfig()` (which is never
consulted), so the load did not proceed as in the no-prior-record case. -/
theorem loadPlugin_read_error_cex :
    envReadErrRec.dbErr = true ∧
    alookup (loadPlugin [] "./plugins/r.so" envReadErrRec).1 "r" =
      some ⟨"r", "1.0", "demo", "./plugins/r.so", false, some [("k", "v")],
        rInst⟩ ∧
    some [("k", "v")] ≠ rInst.defaultConfig ∧
    (loadPlugin [] "./plugins/r.so" envReadErrRec).2.2.defaultConfigCalls =
      0 := by
  refine ⟨rfl, rfl, ?_, rfl⟩
  decide

/-- C10 amended: the error from the storage read is discarded and has no
effect on `loadPlugin`'s behaviour; when the read returns no record — with
or without an error — the load proceeds exactly as in the no-prior-record
case, and the read failure is never surfaced. (A record returned alongside
an error is used as if the read had succeeded.) -/
theorem loadPlugin_read_error_ignored (reg : Registry) (path : String)
    (env : LoadEnv) (inst : PluginImpl) (herr : env.dbErr = true)
    (hdb : env.dbRec = none) (hload : env.loadResult = some inst) :
    loadPlugin reg path env = loadPlugin reg path { env with dbErr := false } ∧
    (loadPlugin reg path env).2.1 = none ∧
    alookup (loadPlugin reg path env).1 inst.name =
      some ⟨inst.name, inst.version, inst.description, path, false,
        inst.defaultConfig, inst⟩ := by
  obtain ⟨lr, dbr, de, pr, so⟩ := env
  refine ⟨rfl, ?_⟩
  simp only at hload hdb
  simp [loadPlugin, hload, hdb, alookup_mapInsert_self]

/-- Witness for the amended C10 at a concrete environment. -/
theorem loadPlugin_read_error_ignored_w :
    (envReadErrNoRec.dbErr = true ∧ envReadErrNoRec.dbRec = none ∧
      envReadErrNoRec.loadResult = some sampleInst) ∧
    (loadPlugin [] "./plugins/p.so" envReadErrNoRec =
      loadPlugin [] "./plugins/p.so" { envReadErrNoRec with dbErr := false } ∧
    (loadPlugin [] "./plugins/p.so" envReadErrNoRec).2.1 = none ∧
    alookup (loadPlugin [] "./plugins/p.so" envReadErrNoRec).1
        sampleInst.name =
      some ⟨sampleInst.name, sampleInst.version, sampleInst.description,
        "./plugins/p.so", false, sampleInst.defaultConfig, sampleInst⟩) :=
  ⟨⟨rfl, rfl, rfl⟩,
    loadPlugin_read_error_ignored [] "./plugins/p.so" envReadErrNoRec
      sampleInst rfl rfl rfl⟩

/-! ## Dispatcher (C4) -/

theorem shouldDispatch_iff (info : PluginInfo) (event : EventType)
    (path : String) :
    shouldDispatch info event path = true ↔
      info.enabled = true ∧ event ∈ info.plugin.interestedEvents ∧
        ∃ api ∈ info.plugin.interestedAPIs, strStartsWith path api = true := by
  simp [shouldDispatch, eventInterested, apiInterested, List.any_eq_true,
    Bool.and_eq_true, and_assoc]

theorem mem_triggerEvent (reg : Registry) (event : EventType) (path : String)
    (info : PluginInfo) :
    info ∈ TriggerEvent reg event path ↔
      ∃ k : String, (k, info) ∈ reg ∧ shouldDispatch info event path = true := by
  simp only [TriggerEvent, List.mem_map, List.mem_filter]
  constructor
  · rintro ⟨⟨k1, v⟩, ⟨hmem, hd⟩, hv⟩
    cases hv
    exact ⟨k1, hmem, hd⟩
  · rintro ⟨k1, hmem, hd⟩
    exact ⟨(k1, info), ⟨hmem, hd⟩, rfl⟩

/-- C4: a registered record's handler is dispatched by `TriggerEvent` if
and only if the record is enabled, the event is among the instance's
`InterestedEvents()`, and some element of its `InterestedAPIs()` is a
string prefix of the path; a record with an empty interest set is never
dispatched. -/
theorem triggerEvent_dispatch_iff (reg : Registry) (event : EventType)
    (path k : String) (info : PluginInfo) (h : (k, info) ∈ reg) :
    (info ∈ TriggerEvent reg event path ↔
      info.enabled = true ∧ event ∈ info.plugin.interestedEvents ∧
        ∃ api ∈ info.plugin.interestedAPIs, strStartsWith path api = true) ∧
    ((info.plugin.interestedEvents = [] ∨ info.plugin.interestedAPIs = []) →
      info ∉ TriggerEvent reg event path) := by
  constructor
  · constructor
    · intro hm
      obtain ⟨k1, hk1, hd⟩ := (mem_triggerEvent reg event path info).mp hm
      exact (shouldDispatch_iff info event path).mp hd
    · intro hc
      exact (mem_triggerEvent reg event path info).mpr
        ⟨k, h, (shouldDispatch_iff info event path).mpr hc⟩
  · intro hemp hm
    obtain ⟨k1, hk1, hd⟩ := (mem_triggerEvent reg event path info).mp hm
    rw [shouldDispatch_iff] at hd
    rcases hemp with he | ha
    · rw [he] at hd
      simp at hd
    · rw [ha] at hd
      simp at hd

/-- Witness for C4: in a registry with one enabled record interested in
`api_before` events on the `/v1/users` path prefix, the record is
dispatched for `api_before` at path `/v1/users/42`. -/
theorem triggerEvent_dispatch_iff_w :
    ("p", sampleOn) ∈ regOn ∧
    sampleOn ∈ TriggerEvent regOn EventAPIBefore "/v1/users/42" :=
  ⟨by decide,
    (triggerEvent_dispatch_iff regOn EventAPIBefore "/v1/users/42" "p"
        sampleOn (by decide)).1.mpr
      ⟨by decide, by decide, "/v1/users", by decide, by decide⟩⟩

/-! ## GetAllPlugins (C2) -/

/-- C2 counterexample: `GetAllPlugins` copies the map but shares the
record pointers, so mutating a record reachable through the returned map
changes the record the registry itself observes. -/
theorem getAllPlugins_not_defensive_cex :
    ("p", 0) ∈ GetAllPlugins ⟨[("p", 0)], [(0, sampleOff)]⟩ ∧
    observe ⟨[("p", 0)], heapSet [(0, sampleOff)] 0 sampleOn⟩ "p" ≠
      observe ⟨[("p", 0)], [(0, sampleOff)]⟩ "p" :=
  ⟨by decide, by decide⟩

/-- C2 amended: `GetAllPlugins` returns a fresh map with the same
name-to-pointer entries, so mutating the returned map itself cannot change
the registry; but the records are shared by pointer — writing through a
pointer obtained from the result changes the record the registry
observes. -/
theorem getAllPlugins_shallow_copy (s : MState) (name : String) (a : Addr)
    (r0 rNew : PluginInfo) (h1 : alookup s.plugins name = some a)
    (h2 : alookup s.heap a = some r0) :
    GetAllPlugins s = s.plugins ∧
    alookup (GetAllPlugins s) name = some a ∧
    observe ⟨s.plugins, heapSet s.heap a rNew⟩ name = some rNew := by
  refine ⟨rfl, h1, ?_⟩
  simp [observe, h1, alookup_heapSet h2 rNew]

/-- Witness for the amended C2 at a concrete state. -/
theorem getAllPlugins_shallow_copy_w :
    (alookup (MState.plugins ⟨[("p", 0)], [(0, sampleOff)]⟩) "p" = some 0 ∧
      alookup (MState.heap ⟨[("p", 0)], [(0, sampleOff)]⟩) 0 =
        some sampleOff) ∧
    (GetAllPlugins ⟨[("p", 0)], [(0, sampleOff)]⟩ = [("p", 0)] ∧
      alookup (GetAllPlugins ⟨[("p", 0)], [(0, sampleOff)]⟩) "p" = some 0 ∧
      observe ⟨[("p", 0)], heapSet [(0, sampleOff)] 0 sampleOn⟩ "p" =
        some sampleOn) :=
  ⟨⟨by decide, by decide⟩,
    getAllPlugins_shallow_copy ⟨[("p", 0)], [(0, sampleOff)]⟩ "p" 0 sampleOff
      sampleOn (by decide) (by decide)⟩

/-! ## The enabled-implies-init invariant (C1) -/

/-- C1 counterexample: during `loadPlugin`, a module whose persisted
record is enabled and whose `Init` succeeds is registered with
`enabled == true` and then persisted; when that `SavePlugin` call fails
(here `saveOk = false`) the failure is only logged — the record stays
registered with `enabled == true` and the load still succeeds. -/
theorem loadPlugin_enabled_despite_save_fail_cex :
    envSaveFail.saveOk = false ∧
    (loadPlugin [] "./plugins/p.so" envSaveFail).2.2.saves =
      [⟨"p", "./plugins/p.so", true, none⟩] ∧
    alookup (loadPlugin [] "./plugins/p.so" envSaveFail).1 "p" =
      some ⟨"p", "1.0", "demo", "./plugins/p.so", true, none, sampleInst⟩ ∧
    (loadPlugin [] "./plugins/p.so" envSaveFail).2.1 = none :=
  ⟨rfl, rfl, rfl, rfl⟩

/-- Every registered record is enabled only if its instance's `Init`
succeeded. -/
def regWellFormed (reg : Registry) : Bool :=
  reg.all (fun kv => !kv.2.enabled || kv.2.plugin.initOk)

theorem regWellFormed_mapInsert {reg : Registry} {k : String}
    {v : PluginInfo} (hinv : regWellFormed reg = true)
    (hv : v.enabled = true → v.plugin.initOk = true) :
    regWellFormed (mapInsert reg k v) = true := by
  unfold regWellFormed at hinv ⊢
  refine all_mapInsert hinv ?_
  cases he : v.enabled
  · simp
  · simp [hv he]

theorem regWellFormed_lookup {reg : Registry} {name : String}
    {info : PluginInfo} (hinv : regWellFormed reg = true)
    (h : alookup reg name = some info) :
    info.enabled = true → info.plugin.initOk = true := by
  intro he
  have hm := alookup_mem h
  have hp := List.all_eq_true.mp hinv _ hm
  simpa [he] using hp

theorem regWellFormed_loadPlugin (reg : Registry) (path : String)
    (env : LoadEnv) (hinv : regWellFormed reg = true) :
    regWellFormed (loadPlugin reg path env).1 = true := by
  obtain ⟨lr, dbr, de, pr, so⟩ := env
  cases lr with
  | none => exact hinv
  | some inst =>
    cases dbr with
    | none => exact regWellFormed_mapInsert hinv (fun h2 => Bool.noConfusion h2)
    | some db =>
      obtain ⟨dn, dp, den, dc⟩ := db
      by_cases hc : dc = ""
      · subst hc
        cases den with
        | false =>
          exact regWellFormed_mapInsert hinv (fun h2 => Bool.noConfusion h2)
        | true =>
          cases hio : inst.initOk with
          | false =>
            simp only [loadPlugin, hio]
            exact hinv
          | true =>
            simp only [loadPlugin, hio]
            exact regWellFormed_mapInsert hinv (fun _ => hio)
      · cases hp : pr dc with
        | none =>
          simp only [loadPlugin]
          rw [if_neg hc, hp]
          exact hinv
        | some m =>
          cases den with
          | false =>
            simp only [loadPlugin]
            rw [if_neg hc, hp]
            exact regWellFormed_mapInsert hinv (fun h2 => Bool.noConfusion h2)
          | true =>
            cases hio : inst.initOk with
            | false =>
              simp only [loadPlugin, hio]
              rw [if_neg hc, hp]
              exact hinv
            | true =>
              simp only [loadPlugin, hio]
              rw [if_neg hc, hp]
              exact regWellFormed_mapInsert hinv (fun _ => hio)

theorem regWellFormed_enablePlugin (reg : Registry) (name : String)
    (so : Bool) (hinv : regWellFormed reg = true) :
    regWellFormed (EnablePlugin reg name so).1 = true := by
  cases h : alookup reg name with
  | none =>
    simp only [EnablePlugin, h]
    exact hinv
  | some info =>
    cases he : info.enabled with
    | true =>
      simp only [EnablePlugin, h, he]
      exact hinv
    | false =>
      cases hio : info.plugin.initOk with
      | false =>
        simp only [EnablePlugin, h, he, hio]
        exact hinv
      | true =>
        cases so with
        | false =>
          simp only [EnablePlugin, h, he, hio]
          exact hinv
        | true =>
          simp only [EnablePlugin, h, he, hio]
          exact regWellFormed_mapInsert hinv (fun _ => hio)

theorem regWellFormed_disablePlugin (reg : Registry) (name : String)
    (so : Bool) (hinv : regWellFormed reg = true) :
    regWellFormed (DisablePlugin reg name so).1 = true := by
  cases h : alookup reg name with
  | none =>
    simp only [DisablePlugin, h]
    exact hinv
  | some info =>
    cases he : info.enabled with
    | false =>
      simp only [DisablePlugin, h, he]
      exact hinv
    | true =>
      simp only [DisablePlugin, h, he]
      exact regWellFormed_mapInsert hinv (fun h2 => Bool.noConfusion h2)

theorem regWellFormed_updateConfig (reg : Registry) (name : String)
    (cfg : Config) (so : Bool) (hinv : regWellFormed reg = true) :
    regWellFormed (UpdatePluginConfig reg name cfg so).1 = true := by
  cases h : alookup reg name with
  | none =>
    simp only [UpdatePluginConfig, h]
    exact hinv
  | some info =>
    cases so with
    | false =>
      simp only [UpdatePluginConfig, h]
      exact hinv
    | true =>
      simp only [UpdatePluginConfig, h]
      exact regWellFormed_mapInsert hinv
        (fun he => @regWellFormed_lookup reg name info hinv h he)

/-- C1 amended: every operation preserves "`enabled == true` only if the
instance's `Init` succeeded"; for `EnablePlugin` a record newly observed
enabled additionally requires the persistence write to have succeeded
(`EnablePlugin` rolls back on write failure) — but `loadPlugin` keeps a
record registered enabled even when its persistence write failed, the
failure being only logged. -/
theorem enabled_requires_init (reg : Registry) (path name : String)
    (cfg : Config) (env : LoadEnv) (so : Bool) (info info2 : PluginInfo)
    (hinv : regWellFormed reg = true) :
    (regWellFormed (loadPlugin reg path env).1 = true ∧
      regWellFormed (EnablePlugin reg name so).1 = true ∧
      regWellFormed (DisablePlugin reg name so).1 = true ∧
      regWellFormed (UpdatePluginConfig reg name cfg so).1 = true ∧
      regWellFormed (Shutdown reg).1 = true) ∧
    (alookup reg name = some info → info.enabled = false →
      alookup (EnablePlugin reg name so).1 name = some info2 →
      info2.enabled = true → info.plugin.initOk = true ∧ so = true) := by
  constructor
  · exact ⟨regWellFormed_loadPlugin reg path env hinv,
      regWellFormed_enablePlugin reg name so hinv,
      regWellFormed_disablePlugin reg name so hinv,
      regWellFormed_updateConfig reg name cfg so hinv, rfl⟩
  · intro h1 h2 h3 h4
    cases hio : info.plugin.initOk with
    | false =>
      simp [EnablePlugin, h1, h2, hio] at h3
      subst h3
      rw [h2] at h4
      exact Bool.noConfusion h4
    | true =>
      cases so with
      | false =>
        simp [EnablePlugin, h1, h2, hio] at h3
        subst h3
        rw [h2] at h4
        exact Bool.noConfusion h4
      | true => exact ⟨rfl, rfl⟩

/-- Witness for the amended C1 at a concrete registry: a disabled record
whose enabling succeeds and persists. -/
theorem enabled_requires_init_w :
    regWellFormed regOff = true ∧
    ((regWellFormed (loadPlugin regOff "./plugins/p.so" envNoRec).1 = true ∧
      regWellFormed (EnablePlugin regOff "p" true).1 = true ∧
      regWellFormed (DisablePlugin regOff "p" true).1 = true ∧
      regWellFormed (UpdatePluginConfig regOff "p" none true).1 = true ∧
      regWellFormed (Shutdown regOff).1 = true) ∧
    (alookup regOff "p" = some sampleOff → sampleOff.enabled = false →
      alookup (EnablePlugin regOff "p" true).1 "p" =
        some { sampleOff with enabled := true } →
      PluginInfo.enabled { sampleOff with enabled := true } = true →
      sampleOff.plugin.initOk = true ∧ true = true)) :=
  ⟨by decide,
    enabled_requires_init regOff "./plugins/p.so" "p" none envNoRec true
      sampleOff { sampleOff with enabled := true } (by decide)⟩

end SublinkPlugins
